import Mathlib

/-!
Verification development for the rig-manager VS Code extension
(`WahiduzzamanKhan/rig-manager-vscode`).

The definitions below are a shallow embedding of `extension.js`
(the current revision of the extension's only implementation file).
Effectful JavaScript is embedded as pure functions over explicit
inputs: the environment (platform, configuration, workspace folders),
the outcomes of external events (a prompt's answer, a child process's
exit code and stderr, a cancellation request), and the pre-state
(live terminal names, installed versions).  Each function mirrors the
control flow of the corresponding JavaScript function and keeps its
name where Lean allows it.
-/

namespace RigManager

/-- One entry of the JSON array produced by `rig list --json`,
as consumed by the extension (`r.name`, `r.version`, `r.default`,
`r.binary`, `r.path`). -/
structure InstalledVersion where
  name : String
  version : String
  default : Bool
  binary : Option String
  path : String
deriving DecidableEq

/-- The supported values of `process.platform` that the extension
branches on (`win32`, `darwin`, everything else = Linux). -/
inductive Platform
  | win32
  | darwin
  | linux
deriving DecidableEq

/-- Classification of how a privileged operation settles, together
with the user-facing message the extension shows.  `success`,
`cancelled`, `authFailed` and `opFailed` correspond to the resolve /
cancellation-warning / code-1 / other-failure paths of the source. -/
inductive OpResult
  | success (msg : String)
  | cancelled (msg : String)
  | authFailed (msg : String)
  | opFailed (msg : String)
deriving DecidableEq

/-- True exactly on the `success` constructor. -/
def OpResult.isSuccess : OpResult → Bool
  | .success _ => true
  | _ => false

/-- True exactly on the `cancelled` constructor. -/
def OpResult.isCancelled : OpResult → Bool
  | .cancelled _ => true
  | _ => false

/-- True exactly on the `authFailed` constructor. -/
def OpResult.isAuthFailed : OpResult → Bool
  | .authFailed _ => true
  | _ => false

/-- True exactly on the `opFailed` constructor. -/
def OpResult.isOpFailed : OpResult → Bool
  | .opFailed _ => true
  | _ => false

/-- JavaScript `operation.charAt(0).toUpperCase() + operation.slice(1)`. -/
def capitalizeFirst (s : String) : String :=
  match s.data with
  | [] => ""
  | c :: rest => String.mk (c.toUpper :: rest)

/-- Whether `pat` is a prefix of `s`, character by character. -/
def charsStartWith : List Char → List Char → Bool
  | [], _ => true
  | _ :: _, [] => false
  | p :: ps, c :: cs => p == c && charsStartWith ps cs

/-- Whether `pat` occurs contiguously inside `s`. -/
def hasSubChars : List Char → List Char → Bool
  | _, [] => true
  | [], _ :: _ => false
  | c :: cs, p :: ps => charsStartWith (p :: ps) (c :: cs) || hasSubChars cs (p :: ps)

/-- JavaScript `s.includes(pat)`. -/
def containsSub (s pat : String) : Bool :=
  hasSubChars s.data pat.data

/-- The `close` handler of `handleUnixRigOperation` (extension.js,
lines 341-353): exit code 0 resolves; exit code exactly 1 is reported
as a password/permission error; any other code is reported as a
generic failure whose message carries the exit code. -/
def classifyUnixClose (operation version : String) (code : Int) : OpResult :=
  if code = 0 then
    .success ("Successfully " ++ operation ++ "ed R version: " ++ version)
  else if code = 1 then
    .authFailed ("Failed to " ++ operation ++ " R " ++ version ++
      ". Incorrect password or permission error.")
  else
    .opFailed ("Failed to " ++ operation ++ " R version " ++ version ++
      ". See extension host logs for details. Exit code: " ++ toString code)

/-- The `close` handler of `handleWindowsRigOperation` (lines
274-286): exit code 0 resolves; otherwise access-denied markers in
stderr select an elevation hint, else a generic failure carrying
stderr, or the exit code when stderr is empty (JS falsy `stderr ||`). -/
def classifyWindowsClose (operation version : String) (code : Int) (stderr : String) :
    OpResult :=
  if code = 0 then
    .success ("Successfully " ++ operation ++ "ed R version: " ++ version)
  else if containsSub stderr "Access is denied" || containsSub stderr "permission" then
    .opFailed ("Failed to " ++ operation ++ " R " ++ version ++
      ". Administrator privileges may be required. Try running VS Code as administrator.")
  else
    .opFailed ("Failed to " ++ operation ++ " R version " ++ version ++ ". " ++
      (if stderr = "" then "Exit code: " ++ toString code else stderr))

/-- Observable outcome of one run of a privileged install/remove
handler: how it settled, whether a child process was spawned, whether
that process was killed by cancellation, whether the status bar was
refreshed, and whether the backend mutation ran to completion (the
spawned process exited 0 without being killed). -/
structure RunOutcome where
  result : OpResult
  spawned : Bool
  processKilled : Bool
  statusRefreshed : Bool
  mutationCompleted : Bool
deriving DecidableEq

/-- `handleUnixRigOperation` (lines 303-361).  Inputs: the operation
word and version, the credential-prompt answer (`none` = the user
dismissed the prompt), whether cancellation was requested while the
process ran, and the process's exit code.  A dismissed prompt returns
before anything is spawned; cancellation kills the spawned `sudo`
wrapper and settles the promise as cancelled before its `close`
handler can settle it; otherwise the `close` handler classifies the
exit code, refreshing the status bar only on code 0. -/
def handleUnixRigOperation (operation version : String) (password : Option String)
    (cancelRequested : Bool) (exitCode : Int) : RunOutcome :=
  match password with
  | none =>
    { result := .cancelled (capitalizeFirst operation ++ " of R " ++ version ++ " cancelled.")
      spawned := false
      processKilled := false
      statusRefreshed := false
      mutationCompleted := false }
  | some _ =>
    if cancelRequested then
      { result := .cancelled (capitalizeFirst operation ++ " of R " ++ version ++ " cancelled.")
        spawned := true
        processKilled := true
        statusRefreshed := false
        mutationCompleted := false }
    else
      { result := classifyUnixClose operation version exitCode
        spawned := true
        processKilled := false
        statusRefreshed := exitCode == 0
        mutationCompleted := exitCode == 0 }

/-- `handleWindowsRigOperation` (lines 240-294): no credential prompt;
`rig` is spawned directly; cancellation kills it and settles the
promise as cancelled; otherwise the `close` handler classifies the
exit code and stderr. -/
def handleWindowsRigOperation (operation version : String)
    (cancelRequested : Bool) (exitCode : Int) (stderr : String) : RunOutcome :=
  if cancelRequested then
    { result := .cancelled (capitalizeFirst operation ++ " of R " ++ version ++ " cancelled.")
      spawned := true
      processKilled := true
      statusRefreshed := false
      mutationCompleted := false }
  else
    { result := classifyWindowsClose operation version exitCode stderr
      spawned := true
      processKilled := false
      statusRefreshed := exitCode == 0
      mutationCompleted := exitCode == 0 }

/-- Which handler `handleRigOperation` (lines 221-231) dispatches to:
`win32` goes to the Windows handler, every other platform (macOS and
Linux alike) goes to the Unix handler. -/
inductive RigOpDispatch
  | windowsHandler
  | unixHandler
deriving DecidableEq

/-- `handleRigOperation`'s platform dispatch (lines 221-231). -/
def handleRigOperation : Platform → RigOpDispatch
  | .win32 => .windowsHandler
  | .darwin => .unixHandler
  | .linux => .unixHandler

/-- Effect of the external backend (`rig add` / `rig rm`) on the
installed-version set, guarded by whether the spawned operation ran to
completion: a killed or never-spawned operation changes nothing. -/
def installedAfter (installed : List String) (rigCommand version : String)
    (completed : Bool) : List String :=
  if !completed then installed
  else if rigCommand = "add" then installed ++ [version]
  else installed.filter (fun v => !(v == version))

/-- The externally observable steps a handler takes, in order. -/
inductive Action
  | promptCredential
  | spawnBackendDirect
  | spawnElevated
  | execUnelevated
deriving DecidableEq

/-- Action trace of `handleUnixRigOperation`: it prompts first,
unconditionally, and spawns the `sudo` elevation wrapper only when the
prompt was answered.  No unelevated attempt ever occurs. -/
def unixRigOpActions (password : Option String) : List Action :=
  .promptCredential ::
    (match password with
     | none => []
     | some _ => [.spawnElevated])

/-- Action trace of `handleWindowsRigOperation`: a single direct spawn
of `rig`, no prompt, no elevation wrapper. -/
def windowsRigOpActions : List Action :=
  [.spawnBackendDirect]

/-- Action trace of `handleRigOperation` (install/remove), following
its dispatch (lines 221-231). -/
def rigOperationActions (p : Platform) (password : Option String) : List Action :=
  match handleRigOperation p with
  | .windowsHandler => windowsRigOpActions
  | .unixHandler => unixRigOpActions password

/-- Action trace of `switchToVersion` (lines 115-212): Windows runs
`rig default` unelevated; macOS first runs it unelevated and, only on
failure, prompts and spawns the elevation wrapper; Linux prompts first
and never attempts unelevated. -/
def switchActions (p : Platform) (directSucceeds : Bool) (password : Option String) :
    List Action :=
  match p with
  | .win32 => [.execUnelevated]
  | .darwin =>
    .execUnelevated ::
      (if directSucceeds then []
       else .promptCredential ::
         (match password with
          | none => []
          | some _ => [.spawnElevated]))
  | .linux =>
    .promptCredential ::
      (match password with
       | none => []
       | some _ => [.spawnElevated])

/-- The `close` handler of the `sudo rig default` spawn inside
`switchToVersion` (lines 160-170 and 195-205): code 0 resolves, any
non-zero code rejects with a message built from stderr only. -/
def classifySwitchClose (versionName : String) (code : Int) (stderrData : String) :
    OpResult :=
  if code = 0 then
    .success ("Switched default R version to: " ++ versionName)
  else
    .opFailed ("Failed to switch to " ++ versionName ++ ": " ++ stderrData)

/-- Observable outcome of `switchToVersion`: how it settled, whether
`updateStatusBar()` ran, whether `launchRConsole(true)` ran, and which
version is the backend default afterwards (the backend's `rig default`
changes the default exactly when it succeeds). -/
structure SwitchOutcome where
  result : OpResult
  statusRefreshed : Bool
  consoleForceRecreated : Bool
  defaultAfter : String
deriving DecidableEq

/-- The success outcome shared by every resolving branch of
`switchToVersion`: message, status-bar refresh, forced console
recreation, and the new default. -/
def switchSuccess (versionName : String) : SwitchOutcome :=
  { result := .success ("Switched default R version to: " ++ versionName)
    statusRefreshed := true
    consoleForceRecreated := true
    defaultAfter := versionName }

/-- A failing branch of `switchToVersion`: no status-bar refresh, no
console recreation, the previous default stays. -/
def switchFailure (r : OpResult) (oldDefault : String) : SwitchOutcome :=
  { result := r
    statusRefreshed := false
    consoleForceRecreated := false
    defaultAfter := oldDefault }

/-- `switchToVersion` (lines 115-212).  Inputs beyond the target and
platform: the prior default, whether the unelevated `exec` of
`rig default` succeeds and its stderr, the credential-prompt answer,
whether spawning `sudo` itself errors and with what message, and the
`sudo` process's exit code and accumulated stderr. -/
def switchToVersion (p : Platform) (versionName oldDefault : String)
    (directSucceeds : Bool) (directStderr : String)
    (password : Option String) (sudoSpawnFails : Bool) (sudoSpawnErrMsg : String)
    (sudoExitCode : Int) (sudoStderr : String) : SwitchOutcome :=
  match p with
  | .win32 =>
    if directSucceeds then switchSuccess versionName
    else switchFailure
      (.opFailed ("Failed to switch to " ++ versionName ++ ": " ++ directStderr)) oldDefault
  | .darwin =>
    if directSucceeds then switchSuccess versionName
    else
      match password with
      | none =>
        switchFailure (.cancelled ("Switch to R " ++ versionName ++ " cancelled.")) oldDefault
      | some _ =>
        if sudoSpawnFails then
          switchFailure (.opFailed ("Failed to start sudo process: " ++ sudoSpawnErrMsg))
            oldDefault
        else if sudoExitCode = 0 then switchSuccess versionName
        else switchFailure (classifySwitchClose versionName sudoExitCode sudoStderr) oldDefault
  | .linux =>
    match password with
    | none =>
      switchFailure (.cancelled ("Switch to R " ++ versionName ++ " cancelled.")) oldDefault
    | some _ =>
      if sudoSpawnFails then
        switchFailure (.opFailed ("Failed to start sudo process: " ++ sudoSpawnErrMsg))
          oldDefault
      else if sudoExitCode = 0 then switchSuccess versionName
      else switchFailure (classifySwitchClose versionName sudoExitCode sudoStderr) oldDefault

/-- JavaScript truthiness of an optional string field (absent and the
empty string are falsy), used for `defaultVersion.binary`. -/
def isTruthy : Option String → Bool
  | none => false
  | some s => !(s == "")

/-- The two terminal names `launchRConsole` treats as the managed
console identity (line 492). -/
def rTerminalNames : List String := ["R Console", "R Interactive"]

/-- Number of live terminals carrying a managed console name. -/
def managedCount (ts : List String) : Nat :=
  (ts.filter (fun n => rTerminalNames.contains n)).length

/-- `launchBasicRConsole` (lines 522-551) over the list of live
terminal names.  `rigList` is the outcome of `rig list --json`
(`none` = the backend call failed, so the `.catch` swallows the error
and nothing is created).  A pre-existing `R Console` short-circuits
unless `forceNew`; with `forceNew` the single terminal found by
`find` is disposed; a new terminal is created only when a default
version with a truthy `binary` exists. -/
def launchBasicRConsole (rigList : Option (List InstalledVersion)) (forceNew : Bool)
    (ts : List String) : List String :=
  let existing := ts.contains "R Console"
  if existing && !forceNew then ts
  else
    let ts1 := if existing && forceNew then ts.erase "R Console" else ts
    match rigList with
    | none => ts1
    | some versionsData =>
      match versionsData.find? (fun r => r.default) with
      | some d => if isTruthy d.binary then ts1 ++ ["R Console"] else ts1
      | none => ts1

/-- `launchRConsole` (lines 484-516).  When auto-launch is disabled it
returns with the terminal state untouched.  With `forceNew` it first
disposes every terminal named `R Console` or `R Interactive`.  When
the richer provider (`REditorSupport.r`) is present, console creation
is delegated to it entirely (`providerCreates` is whatever terminals
that external command produces); otherwise the basic path runs. -/
def launchRConsole (autoLaunch : Bool) (providerPresent : Bool)
    (providerCreates : List String) (rigList : Option (List InstalledVersion))
    (forceNew : Bool) (ts : List String) : List String :=
  if !autoLaunch then ts
  else
    let ts1 := if forceNew then ts.filter (fun n => !(rTerminalNames.contains n)) else ts
    if providerPresent then ts1 ++ providerCreates
    else launchBasicRConsole rigList forceNew ts1

/-- Doubling of backslashes performed on the body of a matched
path-shaped substring: `path.replace(/\\/g, '\\\\')` (line 38). -/
def escapeBackslashes : List Char → List Char
  | [] => []
  | c :: rest =>
    if c = '\\' then '\\' :: '\\' :: escapeBackslashes rest
    else c :: escapeBackslashes rest

/-- Whether the character list contains a position at which the
Windows path regex `"([A-Za-z]:[^"]*?)"` could begin to match: a
double quote followed by an ASCII letter and a colon. -/
def hasDriveStart : List Char → Bool
  | [] => false
  | [_] => false
  | [_, _] => false
  | a :: c :: d :: rest =>
    (a == '"' && c.isAlpha && d == ':') || hasDriveStart (c :: d :: rest)

/-- Fuelled scanner implementing the global regex replacement
`cleanOutput.replace(/"([A-Za-z]:[^"]*?)"/g, ...)` (lines 36-40): at
each position, if a quote is followed by a letter, a colon, a run of
non-quote characters and a closing quote, that whole quoted substring
is replaced by the same substring with its backslashes doubled, and
scanning resumes after the closing quote; otherwise the scanner
advances one character.  Fuel bounds the recursion; one unit is spent
per step and every step consumes at least one character, so fuel equal
to the input length always suffices (and leftover input is returned
unchanged when fuel runs out). -/
def winSanitizeFuel : Nat → List Char → List Char
  | 0, s => s
  | _ + 1, [] => []
  | fuel + 1, [a] => a :: winSanitizeFuel fuel []
  | fuel + 1, [a, c] => a :: winSanitizeFuel fuel [c]
  | fuel + 1, a :: c :: d :: rest2 =>
    if a == '"' && c.isAlpha && d == ':' then
      match rest2.dropWhile (fun e => !(e == '"')) with
      | [] => a :: winSanitizeFuel fuel (c :: d :: rest2)
      | q :: rest3 =>
        a :: c :: d ::
          (escapeBackslashes (rest2.takeWhile (fun e => !(e == '"'))) ++
            q :: winSanitizeFuel fuel rest3)
    else a :: winSanitizeFuel fuel (c :: d :: rest2)

/-- The Windows pre-sanitation step of `executeRigCommand` applied to
a whole string. -/
def winSanitize (s : String) : String :=
  String.mk (winSanitizeFuel s.data.length s.data)

/-- Result of one `executeRigCommand` call: the `exec` failure path,
the successfully decoded value, or a decode failure that retains the
raw (pre-sanitation) standard output, mirroring the
`console.error('Raw rig output:', stdout)` diagnostic. -/
inductive RigCommandResult (J : Type)
  | backendError (stderr : String)
  | ok (value : J)
  | malformed (raw : String)
deriving DecidableEq

/-- `executeRigCommand` (lines 18-53), parametrized by the structured
decoder (`JSON.parse`, a host facility, abstracted as a partial
function).  `execResult` is the callback outcome of `exec`: `.error`
carries stderr, `.ok` carries stdout.  On Windows the trimmed output
is pre-sanitized with `winSanitize` before decoding. -/
def executeRigCommand {J : Type} (onWindows : Bool) (decode : String → Option J)
    (execResult : Except String String) : RigCommandResult J :=
  match execResult with
  | .error stderr => .backendError stderr
  | .ok stdout =>
    let cleanOutput := if onWindows then winSanitize stdout.trim else stdout.trim
    match decode cleanOutput with
    | some v => .ok v
    | none => .malformed stdout

/-- JavaScript `s.split('.')` on a character list: splits at every
dot, keeping empty pieces, and always yields at least one piece. -/
def splitDotAux : List Char → List Char → List (List Char)
  | [], acc => [acc.reverse]
  | c :: rest, acc =>
    if c = '.' then acc.reverse :: splitDotAux rest []
    else splitDotAux rest (c :: acc)

/-- JavaScript `s.split('.')` as used on version strings. -/
def splitDot (s : String) : List String :=
  (splitDotAux s.data []).map String.mk

/-- The destructuring `const [major, minor] = v.split('.')`: the first
two pieces, each possibly absent (JS `undefined`). -/
def majorMinor (s : String) : Option String × Option String :=
  let parts := splitDot s
  (parts.get? 0, parts.get? 1)

/-- What `handleRenvVersionRequirement` proposes: switching to an
installed version (with the flag the source computes as
`requiredVersionInstalled.version === requiredRVersion`, which decides
whether the prompt names an exact match or a compatible fallback), or
installing the missing exact version. -/
inductive RenvResolution
  | proposeSwitch (target : InstalledVersion) (exact : Bool)
  | proposeInstall (version : String)
deriving DecidableEq

/-- `handleRenvVersionRequirement` (lines 666-702): first an exact
version-string match over the installed list, else the first entry
sharing the required version's major and minor components (JS `===`
on the destructured pieces, where two absent components compare
equal); a found entry is proposed as a switch target, labelled exact
iff its version string equals the requirement; otherwise an install of
the exact requirement is proposed. -/
def handleRenvVersionRequirement (requiredRVersion : String)
    (installedVersions : List InstalledVersion) : RenvResolution :=
  let firstFind := installedVersions.find? (fun r => r.version == requiredRVersion)
  let requiredVersionInstalled :=
    match firstFind with
    | some v => some v
    | none =>
      let mm := majorMinor requiredRVersion
      installedVersions.find? (fun r =>
        let imm := majorMinor r.version
        imm.1 == mm.1 && imm.2 == mm.2)
  match requiredVersionInstalled with
  | some v => .proposeSwitch v (v.version == requiredRVersion)
  | none => .proposeInstall requiredRVersion

/-- The compatible-fallback predicate of the source, as a proposition:
the installed version string shares the requirement's destructured
major and minor components. -/
def SameMajorMinor (requiredRVersion installedVersion : String) : Prop :=
  majorMinor installedVersion = majorMinor requiredRVersion

instance (a b : String) : Decidable (SameMajorMinor a b) := by
  unfold SameMajorMinor
  infer_instance

/-- State of the project manifest (`renv.lock`) as the extension
observes it: the file is absent, present but not decodable, or
decodable with an optional `R.Version` field. -/
inductive ManifestState
  | fileAbsent
  | unparseable (raw : String)
  | parsed (rVersion : Option String)
deriving DecidableEq

/-- How one run of `checkRenvRequirements` settles. The boolean on the
early-stop constructors records whether a user-visible message was
shown (the source shows one only under `forceCheck`). -/
inductive ReconcileOutcome
  | skippedAutoCheckOff
  | noWorkspace
  | absentReported (messageShown : Bool)
  | decodeError (messageShown : Bool)
  | noRequirement (messageShown : Bool)
  | backendError
  | alreadySatisfied (messageShown : Bool)
  | proposal (r : RenvResolution)
deriving DecidableEq

/-- True exactly on the `absentReported` constructor. -/
def ReconcileOutcome.isAbsentReport : ReconcileOutcome → Bool
  | .absentReported _ => true
  | _ => false

/-- Whether the outcome put any message in front of the user
(information, warning or error popup).  `backendError` always does,
because `executeRigCommand` itself shows an error message; a
`proposal` is itself a prompt. -/
def messageShown : ReconcileOutcome → Bool
  | .skippedAutoCheckOff => false
  | .noWorkspace => false
  | .absentReported b => b
  | .decodeError b => b
  | .noRequirement b => b
  | .backendError => true
  | .alreadySatisfied b => b
  | .proposal _ => true

/-- Whether the outcome reached the switch/install proposal prompt. -/
def promptShown : ReconcileOutcome → Bool
  | .proposal _ => true
  | _ => false

/-- `checkRenvRequirements` (lines 586-658).  `folders` is
`vscode.workspace.workspaceFolders`, carrying each folder's manifest
state; only the first folder is ever read (line 598).  `rigList` is
the outcome of `rig list --json`.  The auto-check configuration gate
runs first (skipped only when `forceCheck` is unset), then the
empty-workspace guard, then the manifest is read and parsed, the
requirement extracted, compared against the current default, and
finally `handleRenvVersionRequirement` resolves a proposal. -/
def checkRenvRequirements (forceCheck autoCheck : Bool) (folders : List ManifestState)
    (rigList : Option (List InstalledVersion)) : ReconcileOutcome :=
  if !forceCheck && !autoCheck then .skippedAutoCheckOff
  else
    match folders with
    | [] => .noWorkspace
    | m :: _ =>
      match m with
      | .fileAbsent => .absentReported forceCheck
      | .unparseable _ => .decodeError forceCheck
      | .parsed none => .noRequirement forceCheck
      | .parsed (some requiredRVersion) =>
        match rigList with
        | none => .backendError
        | some installedVersions =>
          let currentDefault := installedVersions.find? (fun r => r.default)
          if currentDefault.map (fun r => r.version) == some requiredRVersion then
            .alreadySatisfied forceCheck
          else
            .proposal (handleRenvVersionRequirement requiredRVersion installedVersions)

/-- How the `rig-manager.removeVersion` command proceeds after listing
installed versions (lines 430-456): versions marked default are
filtered out; if nothing removable remains, a warning stops the flow
before any selection UI; otherwise the removable list is offered. -/
inductive RemoveFlow
  | noRemovableWarning
  | offerSelection (removable : List InstalledVersion)
deriving DecidableEq

/-- The remove-version workflow's filtering and guard (lines 432-438). -/
def removeVersionFlow (installed : List InstalledVersion) : RemoveFlow :=
  let removableVersions := installed.filter (fun r => !r.default)
  if removableVersions.length = 0 then .noRemovableWarning
  else .offerSelection removableVersions

/-- Sample installed versions used by the concrete witnesses below;
they mirror the examples of the specification's testable properties. -/
def sample431 : InstalledVersion :=
  ⟨"4.3.1", "4.3.1", false, some "/opt/R/4.3.1/bin/R", "/opt/R/4.3.1"⟩

/-- Sample installed version `4.2.0`, marked default. -/
def sample420 : InstalledVersion :=
  ⟨"4.2.0", "4.2.0", true, some "/opt/R/4.2.0/bin/R", "/opt/R/4.2.0"⟩

/-- Sample installed version `4.3.2`, marked default. -/
def sample432 : InstalledVersion :=
  ⟨"4.3.2", "4.3.2", true, some "/opt/R/4.3.2/bin/R", "/opt/R/4.3.2"⟩

/-! ## Helper lemmas -/

/-- `find?` returns the first element satisfying the predicate: on a
list decomposed as `pre ++ v :: post` with nothing in `pre`
satisfying `p` and `p v` true, it returns `v`. -/
theorem find?_first {α : Type} (p : α → Bool) (pre : List α) (v : α) (post : List α)
    (hpre : ∀ u ∈ pre, p u = false) (hv : p v = true) :
    (pre ++ v :: post).find? p = some v := by
  induction pre with
  | nil => simp [List.find?_cons, hv]
  | cons a as ih =>
    have ha : p a = false := hpre a (List.mem_cons_self a as)
    simp only [List.cons_append, List.find?_cons, ha]
    exact ih fun u hu => hpre u (List.mem_cons_of_mem a hu)

/-- A name that fails the filter predicate is not contained in the
filtered list. -/
theorem contains_filter_eq_false (nm : String) (p : String → Bool) (ts : List String)
    (hp : p nm = false) : (ts.filter p).contains nm = false := by
  rw [List.contains_eq_any_beq, List.any_eq_false]
  intro x hx
  rcases List.mem_filter.mp hx with ⟨_, hpx⟩
  intro hbeq
  have hx' : nm = x := beq_iff_eq.mp hbeq
  rw [← hx', hp] at hpx
  exact Bool.false_ne_true hpx

/-- Filtering for managed names after filtering them away yields
nothing. -/
theorem filter_managed_of_unmanaged (ts : List String) :
    (ts.filter (fun n => !(rTerminalNames.contains n))).filter
      (fun n => rTerminalNames.contains n) = [] := by
  rw [List.filter_filter]
  simp

/-- The Boolean major/minor comparison of the source evaluates to
`true` exactly on `SameMajorMinor`. -/
theorem mm_bool_eq_true {req ver : String} (h : SameMajorMinor req ver) :
    (((majorMinor ver).1 == (majorMinor req).1) &&
      ((majorMinor ver).2 == (majorMinor req).2)) = true := by
  unfold SameMajorMinor at h
  rw [h]
  simp

/-- The Boolean major/minor comparison of the source evaluates to
`false` exactly off `SameMajorMinor`. -/
theorem mm_bool_eq_false {req ver : String} (h : ¬ SameMajorMinor req ver) :
    (((majorMinor ver).1 == (majorMinor req).1) &&
      ((majorMinor ver).2 == (majorMinor req).2)) = false := by
  cases hb : (((majorMinor ver).1 == (majorMinor req).1) &&
      ((majorMinor ver).2 == (majorMinor req).2)) with
  | false => rfl
  | true =>
    exfalso
    apply h
    rcases Bool.and_eq_true_iff.mp hb with ⟨h1, h2⟩
    unfold SameMajorMinor
    exact Prod.ext (beq_iff_eq.mp h1) (beq_iff_eq.mp h2)

/-! ## Claim theorems -/

/-- C1: for every manifest requirement string and installed list, the
reconciler proposes the first exact version-string match as a switch
target labelled exact; failing that, the first entry sharing the
requirement's major and minor components, labelled as a (non-exact)
fallback, with installed-list order the only tie-break; failing both,
an install of the missing exact version. -/
theorem C1_manifest_resolution (requiredRVersion : String)
    (installed : List InstalledVersion) :
    (∀ pre v post, installed = pre ++ v :: post → v.version = requiredRVersion →
        (∀ u ∈ pre, u.version ≠ requiredRVersion) →
        handleRenvVersionRequirement requiredRVersion installed = .proposeSwitch v true)
  ∧ ((∀ u ∈ installed, u.version ≠ requiredRVersion) →
      ∀ pre v post, installed = pre ++ v :: post →
        SameMajorMinor requiredRVersion v.version →
        (∀ u ∈ pre, ¬ SameMajorMinor requiredRVersion u.version) →
        handleRenvVersionRequirement requiredRVersion installed = .proposeSwitch v false)
  ∧ ((∀ u ∈ installed, u.version ≠ requiredRVersion) →
      (∀ u ∈ installed, ¬ SameMajorMinor requiredRVersion u.version) →
      handleRenvVersionRequirement requiredRVersion installed
        = .proposeInstall requiredRVersion) := by
  refine ⟨?_, ?_, ?_⟩
  · intro pre v post hdecomp hv hpre
    subst hdecomp
    have hfind : (pre ++ v :: post).find? (fun r => r.version == requiredRVersion)
        = some v := by
      apply find?_first
      · intro u hu
        simpa using hpre u hu
      · simpa using hv
    simp [handleRenvVersionRequirement, hfind, hv]
  · intro hnone pre v post hdecomp hmm hpre
    have hfindnone : installed.find? (fun r => r.version == requiredRVersion) = none := by
      rw [List.find?_eq_none]
      intro x hx
      simpa using hnone x hx
    have hvmem : v ∈ installed := by
      rw [hdecomp]
      exact List.mem_append_right _ (List.mem_cons_self v post)
    have hlabel : (v.version == requiredRVersion) = false := by
      simpa using hnone v hvmem
    subst hdecomp
    have hfind2 : (pre ++ v :: post).find? (fun r =>
        ((majorMinor r.version).1 == (majorMinor requiredRVersion).1) &&
        ((majorMinor r.version).2 == (majorMinor requiredRVersion).2)) = some v := by
      apply find?_first
      · intro u hu
        exact mm_bool_eq_false (hpre u hu)
      · exact mm_bool_eq_true hmm
    simp [handleRenvVersionRequirement, hfindnone, hfind2, hlabel]
  · intro hnone hnomm
    have hfindnone : installed.find? (fun r => r.version == requiredRVersion) = none := by
      rw [List.find?_eq_none]
      intro x hx
      simpa using hnone x hx
    have hfind2none : installed.find? (fun r =>
        ((majorMinor r.version).1 == (majorMinor requiredRVersion).1) &&
        ((majorMinor r.version).2 == (majorMinor requiredRVersion).2)) = none := by
      rw [List.find?_eq_none]
      intro x hx
      simp [mm_bool_eq_false (hnomm x hx)]
    simp [handleRenvVersionRequirement, hfindnone, hfind2none]

/-- C1 witness: the three concrete scenarios of the specification's
testable properties, obtained by applying `C1_manifest_resolution`. -/
theorem C1_manifest_resolution_witness :
    handleRenvVersionRequirement "4.3.1" [sample431, sample420]
      = .proposeSwitch sample431 true
  ∧ handleRenvVersionRequirement "4.3.1" [sample432]
      = .proposeSwitch sample432 false
  ∧ handleRenvVersionRequirement "5.0.0" [sample432]
      = .proposeInstall "5.0.0" :=
  ⟨(C1_manifest_resolution "4.3.1" [sample431, sample420]).1
      [] sample431 [sample420] rfl (by decide) (by simp),
   (C1_manifest_resolution "4.3.1" [sample432]).2.1
      (by decide) [] sample432 [] rfl (by decide) (by simp),
   (C1_manifest_resolution "5.0.0" [sample432]).2.2
      (by decide) (by decide)⟩

/-- C2 counterexample: the claim asserts that Install/Remove
operations select among three tiers including an
optimistic-then-elevate platform that first attempts the call without
elevation.  On `darwin` — the platform whose switch path is the
optimistic one — `handleRigOperation` dispatches install/remove to the
Unix handler, whose very first action is the credential prompt; no
unelevated backend attempt ever occurs for install/remove on any
platform, so the optimistic tier does not exist for these operations. -/
theorem C2_three_tier_counterexample :
    rigOperationActions .darwin (some "pw")
      = [Action.promptCredential, Action.spawnElevated]
  ∧ Action.spawnBackendDirect ∉ rigOperationActions .darwin (some "pw")
  ∧ Action.execUnelevated ∉ rigOperationActions .darwin (some "pw")
  ∧ switchActions .darwin false (some "pw")
      = [Action.execUnelevated, Action.promptCredential, Action.spawnElevated] := by
  refine ⟨rfl, by decide, by decide, rfl⟩

/-- C2 amended: Install/Remove operations select once per call between
exactly two tiers — `win32` spawns the backend tool directly with no
prompt, and every other platform (macOS and Linux alike) always
prompts for the credential first and runs through the elevation
wrapper, spawning nothing when the prompt is dismissed.  The
optimistic-then-elevate tier exists only in the switch operation's
macOS path, which attempts the unelevated call first and prompts only
on its failure. -/
theorem C2_two_tier_amended (p : Platform) (password : Option String)
    (directSucceeds : Bool) :
    rigOperationActions .win32 password = [Action.spawnBackendDirect]
  ∧ (p ≠ .win32 →
      (rigOperationActions p password).head? = some Action.promptCredential
      ∧ Action.execUnelevated ∉ rigOperationActions p password
      ∧ Action.spawnBackendDirect ∉ rigOperationActions p password
      ∧ (password = none → rigOperationActions p password = [Action.promptCredential]))
  ∧ (switchActions .darwin directSucceeds password).head? = some Action.execUnelevated
  ∧ (directSucceeds = true →
      switchActions .darwin directSucceeds password = [Action.execUnelevated]) := by
  refine ⟨rfl, ?_, ?_, ?_⟩
  · intro hp
    cases p with
    | win32 => exact absurd rfl hp
    | darwin =>
      cases password <;>
        simp [rigOperationActions, handleRigOperation, unixRigOpActions]
    | linux =>
      cases password <;>
        simp [rigOperationActions, handleRigOperation, unixRigOpActions]
  · cases directSucceeds <;> cases password <;> simp [switchActions]
  · intro hd
    subst hd
    simp [switchActions]

/-- C2 witness: `C2_two_tier_amended` applied at concrete inputs,
discharging the platform and dismissal hypotheses. -/
theorem C2_two_tier_amended_witness :
    (rigOperationActions .linux (some "pw")).head? = some Action.promptCredential
  ∧ rigOperationActions .linux none = [Action.promptCredential]
  ∧ switchActions .darwin true none = [Action.execUnelevated] :=
  ⟨((C2_two_tier_amended .linux (some "pw") true).2.1 (by decide)).1,
   ((C2_two_tier_amended .linux none true).2.1 (by decide)).2.2.2 rfl,
   (C2_two_tier_amended .linux none true).2.2.2 rfl⟩

/-- C3 counterexample: the claim asserts that after every forced
refresh exactly one live managed console exists regardless of prior
state.  With console auto-launch disabled, `launchRConsole(true)`
returns before disposing anything: a prior state holding two
duplicated `R Console` terminals still holds both afterwards. -/
theorem C3_forced_refresh_counterexample :
    launchRConsole false false [] (some []) true ["R Console", "R Console"]
      = ["R Console", "R Console"]
  ∧ managedCount ["R Console", "R Console"] = 2 := by
  refine ⟨rfl, by decide⟩

/-- C3 amended: provided auto-launch is enabled, the richer console
provider is absent, and the backend listing succeeds with a default
version whose executable field is truthy, a forced refresh yields
exactly one live managed console for every prior terminal state (0, 1
or duplicated).  When auto-launch is disabled the refresh leaves the
terminal state unchanged (duplicates persist); when the listing fails,
or yields no default entry, the forced refresh disposes every managed
console and creates none. -/
theorem C3_forced_refresh_amended (providerCreates : List String)
    (providerPresent : Bool) (rigList : List InstalledVersion)
    (rigListOpt : Option (List InstalledVersion)) (d : InstalledVersion)
    (ts : List String) :
    (rigList.find? (fun r => r.default) = some d → isTruthy d.binary = true →
      managedCount (launchRConsole true false providerCreates (some rigList) true ts) = 1)
  ∧ launchRConsole false providerPresent providerCreates rigListOpt true ts = ts
  ∧ managedCount (launchRConsole true false providerCreates none true ts) = 0
  ∧ (rigList.find? (fun r => r.default) = none →
      managedCount (launchRConsole true false providerCreates (some rigList) true ts)
        = 0) := by
  have hcont : (ts.filter (fun n => !(rTerminalNames.contains n))).contains "R Console"
      = false := by
    apply contains_filter_eq_false
    decide
  have hmc : managedCount (ts.filter (fun n => !(rTerminalNames.contains n))) = 0 := by
    unfold managedCount
    rw [filter_managed_of_unmanaged]
    rfl
  refine ⟨?_, ?_, ?_, ?_⟩
  · intro hfind hbin
    simp only [launchRConsole, launchBasicRConsole, Bool.not_true, if_false,
      Bool.false_eq_true, if_true, hcont, Bool.false_and, hfind, hbin]
    unfold managedCount
    rw [List.filter_append, filter_managed_of_unmanaged]
    decide
  · simp [launchRConsole]
  · simp only [launchRConsole, launchBasicRConsole, Bool.not_true, if_false,
      Bool.false_eq_true, if_true, hcont, Bool.false_and]
    simpa using hmc
  · intro hfind
    simp only [launchRConsole, launchBasicRConsole, Bool.not_true, if_false,
      Bool.false_eq_true, if_true, hcont, Bool.false_and, hfind]
    simpa using hmc

/-- C3 witness: `C3_forced_refresh_amended` applied to a duplicated
prior state with a successful listing holding a default version. -/
theorem C3_forced_refresh_amended_witness :
    managedCount (launchRConsole true false [] (some [sample432]) true
      ["R Console", "R Console", "bash"]) = 1 :=
  (C3_forced_refresh_amended [] false [sample432] none sample432
      ["R Console", "R Console", "bash"]).1 (by decide) (by decide)

/-- C4: cancellation of a privileged operation — dismissing the
credential prompt (no process is ever spawned) or cancelling in
flight (the spawned elevation wrapper is killed) — settles as
cancelled, never as a generic operation failure, triggers no
status-bar refresh, and leaves the installed-version set unchanged;
the handler spawns at most one process and never retries. -/
theorem C4_cancellation (operation version rigCommand password stderr : String)
    (cancelRequested : Bool) (exitCode : Int) (installed : List String) :
    (handleUnixRigOperation operation version none cancelRequested exitCode).spawned
      = false
  ∧ (handleUnixRigOperation operation version none cancelRequested exitCode).result.isCancelled
      = true
  ∧ (handleUnixRigOperation operation version none cancelRequested exitCode).result.isOpFailed
      = false
  ∧ (handleUnixRigOperation operation version none cancelRequested exitCode).statusRefreshed
      = false
  ∧ installedAfter installed rigCommand version
      (handleUnixRigOperation operation version none cancelRequested exitCode).mutationCompleted
      = installed
  ∧ (handleUnixRigOperation operation version (some password) true exitCode).spawned = true
  ∧ (handleUnixRigOperation operation version (some password) true exitCode).processKilled
      = true
  ∧ (handleUnixRigOperation operation version (some password) true exitCode).result.isCancelled
      = true
  ∧ (handleUnixRigOperation operation version (some password) true exitCode).result.isOpFailed
      = false
  ∧ (handleUnixRigOperation operation version (some password) true exitCode).statusRefreshed
      = false
  ∧ installedAfter installed rigCommand version
      (handleUnixRigOperation operation version (some password) true exitCode).mutationCompleted
      = installed
  ∧ (handleWindowsRigOperation operation version true exitCode stderr).processKilled = true
  ∧ (handleWindowsRigOperation operation version true exitCode stderr).result.isCancelled
      = true
  ∧ (handleWindowsRigOperation operation version true exitCode stderr).result.isOpFailed
      = false
  ∧ installedAfter installed rigCommand version
      (handleWindowsRigOperation operation version true exitCode stderr).mutationCompleted
      = installed := by
  simp [handleUnixRigOperation, handleWindowsRigOperation, installedAfter,
    OpResult.isCancelled, OpResult.isOpFailed]

/-- On a quote-free body followed by a closing quote, `takeWhile`
collects exactly the body. -/
theorem takeWhile_until_quote (body rest : List Char) (h : ∀ d ∈ body, d ≠ '"') :
    (body ++ '"' :: rest).takeWhile (fun e => !(e == '"')) = body := by
  induction body with
  | nil => simp [List.takeWhile_cons]
  | cons a as ih =>
    have ha : (a == '"') = false := by
      simpa using h a (List.mem_cons_self a as)
    simp only [List.cons_append, List.takeWhile_cons, ha, Bool.not_false, if_true]
    rw [ih fun d hd => h d (List.mem_cons_of_mem a hd)]

/-- On a quote-free body followed by a closing quote, `dropWhile`
stops exactly at the quote. -/
theorem dropWhile_until_quote (body rest : List Char) (h : ∀ d ∈ body, d ≠ '"') :
    (body ++ '"' :: rest).dropWhile (fun e => !(e == '"')) = '"' :: rest := by
  induction body with
  | nil => simp [List.dropWhile_cons]
  | cons a as ih =>
    have ha : (a == '"') = false := by
      simpa using h a (List.mem_cons_self a as)
    simp only [List.cons_append, List.dropWhile_cons, ha, Bool.not_false, if_true]
    exact ih fun d hd => h d (List.mem_cons_of_mem a hd)

/-- A matched path-shaped substring — an opening quote, a letter, a
colon, a quote-free body and a closing quote — is rewritten by the
scanner into the same substring with the body's backslashes doubled,
and scanning continues after the closing quote. -/
theorem winSanitizeFuel_match (fuel : Nat) (c : Char) (body rest : List Char)
    (hc : c.isAlpha = true) (hbody : ∀ d ∈ body, d ≠ '"') :
    winSanitizeFuel (fuel + 1) ('"' :: c :: ':' :: (body ++ '"' :: rest)) =
      '"' :: c :: ':' ::
        (escapeBackslashes body ++ '"' :: winSanitizeFuel fuel rest) := by
  rw [winSanitizeFuel]
  rw [dropWhile_until_quote body rest hbody, takeWhile_until_quote body rest hbody]
  simp [hc]

/-- Where no position can begin a path-shaped match, the scanner is
the identity, for every fuel. -/
theorem winSanitizeFuel_id (fuel : Nat) :
    ∀ s : List Char, hasDriveStart s = false → winSanitizeFuel fuel s = s := by
  induction fuel with
  | zero => intro s _; rfl
  | succ n ih =>
    intro s hs
    match s with
    | [] => rfl
    | [a] =>
      rw [winSanitizeFuel, ih [] rfl]
    | [a, c] =>
      rw [winSanitizeFuel, ih [c] rfl]
    | a :: c :: d :: rest =>
      rw [hasDriveStart, Bool.or_eq_false_iff] at hs
      rw [winSanitizeFuel, if_neg (by simp [hs.1]), ih (c :: d :: rest) hs.2]

/-- Doubling backslashes exactly doubles the backslash count. -/
theorem escapeBackslashes_count (body : List Char) :
    (escapeBackslashes body).count '\\' = 2 * body.count '\\' := by
  induction body with
  | nil => rfl
  | cons a as ih =>
    by_cases ha : a = '\\'
    · subst ha
      simp [escapeBackslashes, List.count_cons, ih]
      omega
    · have ha' : (a == '\\') = false := by simpa using ha
      simp [escapeBackslashes, ha, List.count_cons, ha', ih]

/-- Doubling backslashes leaves the non-backslash characters
untouched, in order. -/
theorem escapeBackslashes_preserves (body : List Char) :
    (escapeBackslashes body).filter (fun ch => !(ch == '\\'))
      = body.filter (fun ch => !(ch == '\\')) := by
  induction body with
  | nil => rfl
  | cons a as ih =>
    by_cases ha : a = '\\'
    · subst ha
      simp [escapeBackslashes, List.filter_cons, ih]
    · have ha' : (a == '\\') = false := by simpa using ha
      simp [escapeBackslashes, ha, List.filter_cons, ha', ih]

/-- C5: on the Windows platform the adapter pre-sanitizes every
matched path-shaped substring (a quoted, drive-letter-prefixed run)
by doubling its backslashes before decoding; the doubling exactly
doubles the backslash count and preserves all other characters; a
payload with no possible match is passed through unchanged (non-path
fields are never corrupted); and when decoding still fails after
sanitation the adapter surfaces a decode failure carrying the raw
pre-sanitation payload for diagnostics. -/
theorem C5_win32_sanitation {J : Type} (decode : String → Option J) (stdout : String)
    (fuel : Nat) (c : Char) (body rest s : List Char) :
    (c.isAlpha = true → (∀ d ∈ body, d ≠ '"') →
      winSanitizeFuel (fuel + 1) ('"' :: c :: ':' :: (body ++ '"' :: rest)) =
        '"' :: c :: ':' ::
          (escapeBackslashes body ++ '"' :: winSanitizeFuel fuel rest))
  ∧ (escapeBackslashes body).count '\\' = 2 * body.count '\\'
  ∧ (escapeBackslashes body).filter (fun ch => !(ch == '\\'))
      = body.filter (fun ch => !(ch == '\\'))
  ∧ (hasDriveStart s = false → winSanitizeFuel fuel s = s)
  ∧ (hasDriveStart stdout.trim.data = false → winSanitize stdout.trim = stdout.trim)
  ∧ (decode (winSanitize stdout.trim) = none →
      executeRigCommand true decode (.ok stdout) = .malformed stdout) := by
  refine ⟨fun hc hbody => winSanitizeFuel_match fuel c body rest hc hbody,
    escapeBackslashes_count body, escapeBackslashes_preserves body,
    winSanitizeFuel_id fuel s, ?_, ?_⟩
  · intro hnd
    unfold winSanitize
    rw [winSanitizeFuel_id _ _ hnd]
  · intro hdec
    simp [executeRigCommand, hdec]

/-- C5 witness: `C5_win32_sanitation` applied at a concrete Windows
payload (a drive-letter path with backslashes) and at a concrete
undecodable payload. -/
theorem C5_win32_sanitation_witness :
    winSanitizeFuel 1 ('"' :: 'C' :: ':' :: (['\\', 'a'] ++ '"' :: [])) =
      '"' :: 'C' :: ':' ::
        (escapeBackslashes ['\\', 'a'] ++ '"' :: winSanitizeFuel 0 [])
  ∧ executeRigCommand true (fun _ => (none : Option Unit)) (.ok "not json")
      = .malformed "not json" :=
  ⟨(C5_win32_sanitation (fun _ => (none : Option Unit)) "not json" 0 'C'
      ['\\', 'a'] [] []).1 (by decide) (by decide),
   (C5_win32_sanitation (fun _ => (none : Option Unit)) "not json" 0 'C'
      ['\\', 'a'] [] []).2.2.2.2.2 rfl⟩

/-- C6 counterexample: the claim asserts that every privileged
operation run through the elevation wrapper classifies exit code 1 as
an authentication failure.  The switch operation (a privileged
operation per the specification's executor, which covers
install/remove/switch) runs `sudo rig default` on Linux; when that
wrapper exits with code 1 the source rejects with a generic failure
message built from stderr — not the authentication classification,
and with no exit code in the message. -/
theorem C6_exit_code_counterexample :
    (switchToVersion .linux "4.3.1" "4.2.0" false "" (some "pw") false "" 1 "boom").result
      = .opFailed "Failed to switch to 4.3.1: boom"
  ∧ ((switchToVersion .linux "4.3.1" "4.2.0" false "" (some "pw") false "" 1
      "boom").result).isAuthFailed = false := by
  refine ⟨by decide, by decide⟩

/-- C6 amended: for install/remove operations run through the
elevation wrapper, an exit code of exactly 1 is classified as an
authentication (password/permission) failure and every other non-zero
exit code as a generic operation failure whose surfaced message ends
with the captured exit code; the switch operation's elevated path
instead reports, for every non-zero exit code including 1, a generic
failure carrying the captured stderr. -/
theorem C6_exit_code_amended (operation version : String) (code : Int)
    (stderrData : String) :
    (classifyUnixClose operation version 1).isAuthFailed = true
  ∧ (code ≠ 0 → code ≠ 1 →
      ∃ pre, classifyUnixClose operation version code = .opFailed (pre ++ toString code))
  ∧ (code ≠ 0 →
      classifySwitchClose version code stderrData
        = .opFailed ("Failed to switch to " ++ version ++ ": " ++ stderrData)) := by
  refine ⟨?_, ?_, ?_⟩
  · simp [classifyUnixClose, OpResult.isAuthFailed]
  · intro h0 h1
    refine ⟨"Failed to " ++ operation ++ " R version " ++ version ++
      ". See extension host logs for details. Exit code: ", ?_⟩
    rw [classifyUnixClose, if_neg h0, if_neg h1]
  · intro h0
    rw [classifySwitchClose, if_neg h0]

/-- C6 witness: `C6_exit_code_amended` applied at exit codes 1 and
137 for an install, and at exit code 1 for the elevated switch path. -/
theorem C6_exit_code_amended_witness :
    (classifyUnixClose "install" "4.3.1" 1).isAuthFailed = true
  ∧ (∃ pre, classifyUnixClose "install" "4.3.1" 137
      = .opFailed (pre ++ toString (137 : Int)))
  ∧ classifySwitchClose "4.3.1" 1 "boom"
      = .opFailed ("Failed to switch to " ++ "4.3.1" ++ ": " ++ "boom") :=
  ⟨(C6_exit_code_amended "install" "4.3.1" 137 "boom").1,
   (C6_exit_code_amended "install" "4.3.1" 137 "boom").2.1 (by decide) (by decide),
   (C6_exit_code_amended "install" "4.3.1" 1 "boom").2.2 (by decide)⟩

/-- C7: for every version-switch request on every platform and every
combination of external outcomes, the status bar is refreshed and the
console force-recreated exactly when the switch settles successfully;
on any failure or cancellation neither side effect occurs and the
prior default remains the backend default. -/
theorem C7_switch_no_partial_effects (p : Platform) (versionName oldDefault : String)
    (directSucceeds : Bool) (directStderr : String) (password : Option String)
    (sudoSpawnFails : Bool) (sudoSpawnErrMsg : String) (sudoExitCode : Int)
    (sudoStderr : String) :
    (switchToVersion p versionName oldDefault directSucceeds directStderr password
        sudoSpawnFails sudoSpawnErrMsg sudoExitCode sudoStderr).statusRefreshed
      = (switchToVersion p versionName oldDefault directSucceeds directStderr password
        sudoSpawnFails sudoSpawnErrMsg sudoExitCode sudoStderr).result.isSuccess
  ∧ (switchToVersion p versionName oldDefault directSucceeds directStderr password
        sudoSpawnFails sudoSpawnErrMsg sudoExitCode sudoStderr).consoleForceRecreated
      = (switchToVersion p versionName oldDefault directSucceeds directStderr password
        sudoSpawnFails sudoSpawnErrMsg sudoExitCode sudoStderr).result.isSuccess
  ∧ (switchToVersion p versionName oldDefault directSucceeds directStderr password
        sudoSpawnFails sudoSpawnErrMsg sudoExitCode sudoStderr).defaultAfter
      = (if (switchToVersion p versionName oldDefault directSucceeds directStderr password
          sudoSpawnFails sudoSpawnErrMsg sudoExitCode sudoStderr).result.isSuccess
         then versionName else oldDefault) := by
  cases p <;> cases password <;>
    simp only [switchToVersion] <;>
    split_ifs <;>
    simp_all [switchSuccess, switchFailure, classifySwitchClose, OpResult.isSuccess]

/-- C8: a present but malformed manifest makes reconciliation settle
on the decode-error outcome — a branch distinct from the
manifest-absent outcome — whenever the check runs at all, and the
switch/install proposal prompt is never reached. -/
theorem C8_malformed_manifest (forceCheck autoCheck : Bool) (raw : String)
    (rest : List ManifestState) (rigList : Option (List InstalledVersion)) :
    promptShown (checkRenvRequirements forceCheck autoCheck
      (.unparseable raw :: rest) rigList) = false
  ∧ (forceCheck = true ∨ autoCheck = true →
      checkRenvRequirements forceCheck autoCheck (.unparseable raw :: rest) rigList
        = .decodeError forceCheck)
  ∧ (checkRenvRequirements forceCheck autoCheck
      (.unparseable raw :: rest) rigList).isAbsentReport = false := by
  cases forceCheck <;> cases autoCheck <;>
    simp [checkRenvRequirements, promptShown, ReconcileOutcome.isAbsentReport]

/-- C8 witness: `C8_malformed_manifest` applied to a concrete
malformed manifest under a forced check. -/
theorem C8_malformed_manifest_witness :
    promptShown (checkRenvRequirements true false
      [ManifestState.unparseable "oops"] none) = false
  ∧ checkRenvRequirements true false [ManifestState.unparseable "oops"] none
      = .decodeError true :=
  ⟨(C8_malformed_manifest true false "oops" [] none).1,
   (C8_malformed_manifest true false "oops" [] none).2.1 (Or.inl rfl)⟩

/-- C9: the remove workflow filters out every version marked default
before offering a selection, so a default version is never offered
as (and hence never accepted as) a removal target; and when every
installed version is marked default — so nothing is removable — the
workflow stops with a warning before any selection is offered. -/
theorem C9_default_not_removable (installed : List InstalledVersion) :
    ((∀ v ∈ installed, v.default = true) →
      removeVersionFlow installed = .noRemovableWarning)
  ∧ (∀ vs, removeVersionFlow installed = .offerSelection vs →
      ∀ v ∈ vs, v.default = false) := by
  constructor
  · intro hall
    have hfil : installed.filter (fun r => !r.default) = [] := by
      rw [List.filter_eq_nil_iff]
      intro a ha
      simp [hall a ha]
    simp [removeVersionFlow, hfil]
  · intro vs hvs v hv
    unfold removeVersionFlow at hvs
    by_cases hlen : (installed.filter (fun r => !r.default)).length = 0
    · simp [hlen] at hvs
    · rw [if_neg hlen] at hvs
      injection hvs with hvs'
      rw [← hvs'] at hv
      rcases List.mem_filter.mp hv with ⟨_, hpv⟩
      simpa using hpv

/-- C9 witness: `C9_default_not_removable` applied to a listing whose
only version is default (warning) and to a listing with one
removable and one default version (offered entry is non-default). -/
theorem C9_default_not_removable_witness :
    removeVersionFlow [sample432] = .noRemovableWarning
  ∧ sample431.default = false :=
  ⟨(C9_default_not_removable [sample432]).1 (by decide),
   (C9_default_not_removable [sample431, sample432]).2 [sample431] (by decide)
     sample431 (List.mem_singleton.mpr rfl)⟩

/-- C10: reconciliation consults only the first workspace folder —
its outcome is invariant under replacing everything after the first
folder — and with no workspace folders at all it stops silently (no
message, no prompt) even under a forced check. -/
theorem C10_first_folder_only (forceCheck autoCheck : Bool)
    (rigList : Option (List InstalledVersion)) (m : ManifestState)
    (rest rest2 : List ManifestState) :
    messageShown (checkRenvRequirements forceCheck autoCheck [] rigList) = false
  ∧ promptShown (checkRenvRequirements forceCheck autoCheck [] rigList) = false
  ∧ checkRenvRequirements forceCheck autoCheck (m :: rest) rigList
      = checkRenvRequirements forceCheck autoCheck (m :: rest2) rigList := by
  refine ⟨?_, ?_, rfl⟩ <;>
    cases forceCheck <;> cases autoCheck <;>
      simp [checkRenvRequirements, messageShown, promptShown]

end RigManager
